import Mathlib

/-!
Verification development for the `forge` agentic coding assistant.

Each Rust source construct that the claims touch is embedded as an
executable Lean definition; machine-level concerns (async scheduling,
the SQLite driver, serde_json, quick-xml) are abstracted only where the
corresponding code is not part of the repository snapshot, and every
such abstraction is documented at its definition.
-/

namespace Forge

/-! ## Shared domain model

Types shared between the chat orchestrator (`forge_server/src/service/chat_service.rs`)
and the application state machine (`forge_server/src/app.rs`).
`J` stands for the JSON value type of `serde_json::Value`; the chat layer never
inspects parsed JSON values, so the development is parametric in `J` together
with a parse function `String → Option J` standing for `serde_json::from_str`. -/

/-- Finish reason of a provider stream, from the spec's data model
(`FinishReason` of `forge_domain` is not under `src/`); the orchestrator
only branches on `toolCalls` and `stop`. -/
inductive FinishReason where
  | stop
  | length
  | toolCalls
  | contentFilter
  | other
deriving DecidableEq, Repr

/-- A streamed tool-call fragment (`ToolCallPart`): optional name, optional
call id, and a verbatim argument fragment. -/
structure ToolCallPart where
  name : Option String
  call_id : Option String
  arguments_part : String
deriving DecidableEq, Repr

/-- A fully assembled tool call over JSON values `J`. -/
structure ToolCall (J : Type) where
  name : String
  call_id : Option String
  arguments : J
deriving DecidableEq, Repr

/-- A tool execution outcome, mirroring `forge_domain/src/tool_result.rs`:
`{ name, call_id, content, is_error }` with `content` a serialized payload. -/
structure ToolResult where
  name : String
  call_id : Option String
  content : String
  is_error : Bool
deriving DecidableEq, Repr

/-- Modelled from the spec: `ToolCall::try_from_parts` is declared in
`forge_domain` whose `tool_call.rs` is not under `src/`.  Spec §4.7: the first
part with a non-empty name fixes the tool name, the first with a non-empty
call id fixes the id, argument fragments are concatenated verbatim in list
order and parsed as JSON (`parse` stands for `serde_json::from_str`), and a
parse failure is a hard error. -/
def ToolCall.try_from_parts (parse : String → Option J) (parts : List ToolCallPart) :
    Except String (ToolCall J) :=
  let args := String.join (parts.map (·.arguments_part))
  match (parts.filterMap (·.name)).head? with
  | none => Except.error "tool call name is missing"
  | some n =>
    match parse args with
    | none => Except.error ("invalid JSON in tool call arguments: " ++ args)
    | some j => Except.ok { name := n, call_id := (parts.filterMap (·.call_id)).head?, arguments := j }

/-- Helper for Rust's `str::split_whitespace`: walk the characters, keeping
the (reversed) current token in `acc`, and emit tokens at whitespace
boundaries; empty tokens never arise. -/
def splitWsAux : List Char → List Char → List String
  | [], acc => if acc.isEmpty then [] else [String.mk acc.reverse]
  | c :: cs, acc =>
    if c.isWhitespace then
      if acc.isEmpty then splitWsAux cs []
      else String.mk acc.reverse :: splitWsAux cs []
    else splitWsAux cs (c :: acc)

/-- Rust's `str::split_whitespace`: the whitespace-separated tokens of `s`,
with no empty tokens. -/
def splitWhitespace (s : String) : List String :=
  splitWsAux s.toList []

/-- One streaming chunk (`ChatCompletionMessage`): optional content delta, a
list of tool-call parts, an optional finish reason. -/
structure ChatCompletionMessage where
  content : Option String
  tool_call : List ToolCallPart
  finish_reason : Option FinishReason
deriving DecidableEq, Repr

end Forge

namespace Forge.Req

/-! ## Provider request model — `forge_provider/src/model/{message.rs,request.rs}`

`J` is the type of an assistant message's attached tool call
(`Option<ToolCall>` in `ContentMessage`). -/

/-- Message role as in `message.rs`. -/
inductive Role where
  | System
  | User
  | Assistant
deriving DecidableEq, Repr

/-- `ContentMessage { role, content, tool_call }`. -/
structure ContentMessage (J : Type) where
  role : Role
  content : String
  tool_call : Option J
deriving DecidableEq, Repr

/-- `CompletionMessage` — a content message or a tool result. -/
inductive CompletionMessage (J : Type) where
  | ContentMessage (m : Forge.Req.ContentMessage J)
  | ToolMessage (r : ToolResult)
deriving DecidableEq, Repr

/-- `CompletionMessage::system`. -/
def CompletionMessage.system (content : String) : CompletionMessage J :=
  CompletionMessage.ContentMessage { role := Role.System, content := content, tool_call := none }

/-- `CompletionMessage::user`. -/
def CompletionMessage.user (content : String) : CompletionMessage J :=
  CompletionMessage.ContentMessage { role := Role.User, content := content, tool_call := none }

/-- `Request { conversation_id, messages, model, tools }`; tool definitions are
identified by name here (their schemas play no role in the claims). -/
structure Request (J : Type) where
  conversation_id : Option String
  messages : List (CompletionMessage J)
  model : String
  tools : List String
deriving DecidableEq, Repr

/-- `Request::add_message`: push onto the message list. -/
def Request.add_message (r : Request J) (m : CompletionMessage J) : Request J :=
  { r with messages := r.messages ++ [m] }

/-- `Request::set_system_message` (request.rs lines 46–63): on an empty list
append a system message; otherwise inspect index 0 — overwrite its content if
it is a `ContentMessage` with role `System`, insert a system message in front
if it is a `ContentMessage` with another role, and do nothing at all if it is
a `ToolMessage` (the `if let` pattern fails and the request is returned
unchanged). -/
def Request.set_system_message (r : Request J) (content : String) : Request J :=
  match r.messages with
  | [] => r.add_message (CompletionMessage.system content)
  | CompletionMessage.ContentMessage cm :: rest =>
    if cm.role = Role.System then
      { r with messages := CompletionMessage.ContentMessage { cm with content := content } :: rest }
    else
      { r with messages :=
          CompletionMessage.system content :: CompletionMessage.ContentMessage cm :: rest }
  | CompletionMessage.ToolMessage _ :: _ => r

end Forge.Req

namespace Forge.ShellTool

/-! ## Shell tool — `forge_tool/src/shell.rs` -/

/-- The blacklist built by `Shell::default` (shell.rs lines 36–72). -/
def blacklist : List String :=
  ["rm", "rmdir", "del",
   "format", "mkfs", "dd",
   "chmod", "chown",
   "sudo", "su",
   "exec", "eval",
   "write", "wall",
   "shutdown", "reboot", "init"]

/-- Rust's `str::split_whitespace` as used by `validate_command`. -/
def splitWhitespace (s : String) : List String :=
  Forge.splitWhitespace s

/-- `ShellInput { command, cwd }`. -/
structure ShellInput where
  command : String
  cwd : String
deriving DecidableEq, Repr

/-- `Shell::validate_command`: take the first whitespace-delimited token; an
empty command is an error, a blacklisted base command is an error. -/
def validate_command (command : String) : Except String Unit :=
  match splitWhitespace command with
  | [] => Except.error "Empty command"
  | base :: _ =>
    if base ∈ blacklist then Except.error ("Command '" ++ base ++ "' is not allowed")
    else Except.ok ()

/-- Observable outcome of `Shell::call`: either an error returned before any
process is created, or the spawning of a child process running `command` in
`cwd` (`execute_command`'s exit-status collection is external I/O and is
absent from the outcome we reason about). -/
inductive CallOutcome where
  | error (msg : String)
  | spawned (command : String) (cwd : String)
deriving DecidableEq, Repr

/-- `Shell::call` (shell.rs lines 140–143): validate first — the `?` returns
the validation error without reaching `execute_command` — otherwise spawn. -/
def Shell.call (input : ShellInput) : CallOutcome :=
  match validate_command input.command with
  | Except.error e => CallOutcome.error e
  | Except.ok _ => CallOutcome.spawned input.command input.cwd

end Forge.ShellTool

namespace Forge.ConvRepo

/-! ## Conversation store — `forge_app/src/repo/conversation.rs`

The `conversations` table is a list of rows with unique primary key `id`;
timestamps are abstracted to `Nat`. -/

/-- A row of the `conversations` table (`RawConversation`). -/
structure RawConversation where
  id : String
  created_at : Nat
  updated_at : Nat
  content : String
  archived : Bool
  title : Option String
deriving DecidableEq, Repr

/-- Diesel's `insert_into(..).values(raw).on_conflict(id).do_update()
.set((content, updated_at))`: if a row with the same id exists, overwrite only
its `content` and `updated_at`; otherwise insert the new row. -/
def upsertRow (rows : List RawConversation) (raw : RawConversation) : List RawConversation :=
  if rows.any (fun r => r.id = raw.id) then
    rows.map (fun r =>
      if r.id = raw.id then { r with content := raw.content, updated_at := raw.updated_at } else r)
  else rows ++ [raw]

/-- `Live::set_conversation` (conversation.rs lines 73–106): the id defaults
to a generated one (`ConversationId::generate`, passed in as `genId`); the
candidate row carries both timestamps from `Utc::now()` (`now₁`, `now₂`),
`archived = false` and `title = none`, and is upserted. -/
def set_conversation (rows : List RawConversation) (content : String)
    (now₁ now₂ : Nat) (genId : String) (id : Option String) : List RawConversation :=
  let theId := id.getD genId
  upsertRow rows
    { id := theId, created_at := now₁, updated_at := now₂, content := content,
      archived := false, title := none }

end Forge.ConvRepo

namespace Forge.ToolSvc

/-! ## Tool registry — `forge_tool/src/tool_service.rs`

The registry (`Live`) holds a `HashMap<ToolName, Tool>`.  A `HashMap`'s
iteration order is unspecified (seeded per instance) and in particular is not
sorted; we model the map as the list of its entries in iteration order, with
no ordering invariant.  `J` is the tool input type (`serde_json::Value`). -/

/-- `ToolDefinition` restricted to the fields the claims touch (the JSON
schemas produced by `schemars` play no role here). -/
structure ToolDefinition where
  name : String
  description : String
deriving DecidableEq, Repr

/-- `Tool { name, executable, definition }`. -/
structure Tool (J : Type) where
  name : String
  executable : J → Except String String
  definition : ToolDefinition

/-- The registry: `HashMap` entries in iteration order. -/
structure Live (J : Type) where
  tools : List (String × Tool J)

/-- `Live::call` (tool_service.rs lines 250–257): look the name up; on a miss
return `Err("No such tool found: {name}")`. -/
def Live.call (l : Live J) (name : String) (input : J) : Except String String :=
  match l.tools.find? (fun p => p.1 = name) with
  | some p => p.2.executable input
  | none => Except.error ("No such tool found: " ++ name)

/-- `Live::list` (tool_service.rs lines 259–264): map `definition.clone()`
over `self.tools.values()` — no sorting. -/
def Live.list (l : Live J) : List ToolDefinition :=
  l.tools.map (fun p => p.2.definition)

/-- The comparison used by `Live::usage_prompt`'s
`sort_by(|a, b| a.definition.name.cmp(b.definition.name))`. -/
def nameLe (a b : Tool J) : Prop :=
  a.definition.name ≤ b.definition.name

instance : DecidableRel (nameLe (J := J)) :=
  fun a b => inferInstanceAs (Decidable (a.definition.name ≤ b.definition.name))

instance : IsTotal (Tool J) nameLe :=
  ⟨fun a b => le_total a.definition.name b.definition.name⟩

instance : IsTrans (Tool J) nameLe :=
  ⟨fun _ _ _ h₁ h₂ => le_trans h₁ h₂⟩

/-- The tool sequence `Live::usage_prompt` enumerates (tool_service.rs lines
266–268): the map's values sorted by definition name. -/
def Live.usage_tools (l : Live J) : List (Tool J) :=
  (l.tools.map (fun p => p.2)).insertionSort nameLe

/-- `Live::usage_prompt` (tool_service.rs lines 266–280): numbered rendering
of the name-sorted tools (the per-tool `UsagePrompt` text is rendered from
name and description; schema-derived parameter lines are elided). -/
def Live.usage_prompt (l : Live J) : String :=
  (List.enum l.usage_tools).foldl
    (fun acc p =>
      acc ++ "\n" ++ toString (p.1 + 1) ++ ". " ++ p.2.definition.name ++ "\n"
        ++ p.2.definition.description)
    ""

end Forge.ToolSvc

namespace Forge.UserPrompt

/-! ## User prompt assembly — `forge_server/src/service/user_prompt_service.rs` -/

/-- Modelled from the spec: `Prompt::parse` lives in the `forge_prompt`
crate, which is not under `src/`.  Spec §4.3: the task text is scanned for
`@path` tokens; each such token references the file at `path`. -/
def files (task : String) : List String :=
  (Forge.splitWhitespace task).filterMap (fun t =>
    match t.toList with
    | '@' :: rest => if rest.isEmpty then none else some (String.mk rest)
    | _ => none)

/-- `Live::get_user_prompt` (user_prompt_service.rs lines 39–57): parse the
task, read every referenced file — the `?` on `self.file_read.read(file)`
propagates the first read error — then render the template.  `read` stands
for the injected `FileReadService`, and `render` for the Handlebars rendering
of `prompts/user_task.md` (the template file is not under `src/`; rendering
is total once all file contents are available). -/
def get_user_prompt (read : String → Except String String)
    (render : String → List (String × String) → String) (task : String) :
    Except String String := do
  let fs ← (files task).mapM (fun f => (read f).map (fun c => (f, c)))
  pure (render task fs)

/-- Whether a fallible computation failed. -/
def isErr : Except String α → Bool
  | Except.error _ => true
  | Except.ok _ => false

end Forge.UserPrompt

namespace Forge.Chat

/-! ## Chat orchestrator — `forge_server/src/service/chat_service.rs`

`Live::chat_workflow` and `Live::chat` as a pure state machine: the provider
(`ProviderService::chat`) is modelled by the list of streams it returns to
the successive completion requests, each stream being a finite list of
chunks (`Ok` chunk or terminal stream error); the tool service
(`ToolService::call`, whose `ToolResult`-returning version is not under
`src/` — only its `chat_service.rs` call sites and test double are) is a
total function `ToolCall J → ToolResult` as in those call sites. -/

/-- `Role` of `forge_domain` (its `message.rs` is not under `src/`; roles as
in the spec's data model and the provider model). -/
inductive Role where
  | System
  | User
  | Assistant
deriving DecidableEq, Repr

/-- A content message of a `Context`. -/
structure ContentMessage (J : Type) where
  role : Role
  content : String
  tool_call : Option (ToolCall J)
deriving DecidableEq, Repr

/-- `ContextMessage` — content message or tool message, as in the spec's data
model and the `chat_service.rs` call sites. -/
inductive ContextMessage (J : Type) where
  | ContentMessage (m : Forge.Chat.ContentMessage J)
  | ToolMessage (r : ToolResult)
deriving DecidableEq, Repr

/-- `ContextMessage::system`. -/
def ContextMessage.system (content : String) : ContextMessage J :=
  ContextMessage.ContentMessage { role := Role.System, content := content, tool_call := none }

/-- `ContextMessage::user`. -/
def ContextMessage.user (content : String) : ContextMessage J :=
  ContextMessage.ContentMessage { role := Role.User, content := content, tool_call := none }

/-- `ContextMessage::assistant(content, tool_call)`. -/
def ContextMessage.assistant (content : String) (tool_call : Option (ToolCall J)) :
    ContextMessage J :=
  ContextMessage.ContentMessage { role := Role.Assistant, content := content, tool_call := tool_call }

/-- `Context` — ordered messages plus the attached tool catalog (by name) and
target model (`forge_domain`'s `context.rs` is not under `src/`; the shape
follows the spec's data model and the `chat_service.rs` tests). -/
structure Context (J : Type) where
  messages : List (ContextMessage J)
  tools : List String
  model : Option String
deriving DecidableEq, Repr

/-- `Context::default()`. -/
def Context.default : Context J :=
  { messages := [], tools := [], model := none }

/-- `Context::add_message`. -/
def Context.add_message (c : Context J) (m : ContextMessage J) : Context J :=
  { c with messages := c.messages ++ [m] }

/-- `Context::set_system_message`, with the semantics of
`Request::set_system_message` in `forge_provider/src/model/request.rs` (the
`forge_domain` copy is not under `src/`; the `chat_service.rs` tests exercise
exactly this behaviour). -/
def Context.set_system_message (c : Context J) (content : String) : Context J :=
  match c.messages with
  | [] => c.add_message (ContextMessage.system content)
  | ContextMessage.ContentMessage cm :: rest =>
    if cm.role = Role.System then
      { c with messages := ContextMessage.ContentMessage { cm with content := content } :: rest }
    else
      { c with messages :=
          ContextMessage.system content :: ContextMessage.ContentMessage cm :: rest }
  | ContextMessage.ToolMessage _ :: _ => c

/-- The events of `ChatResponse` (chat_service.rs lines 187–204), without the
`Error` variant: stream errors travel as the `Except.error` side of a stream
item, exactly as `tx.send(Err(e))` does. -/
inductive ChatResponse (J : Type) where
  | Text (s : String)
  | ToolUseDetected (name : String)
  | ToolCallStart (c : ToolCall J)
  | ToolUseEnd (r : ToolResult)
  | ConversationStarted (conversation_id : String)
  | ModifyConversation (id : String) (context : Context J)
  | Complete
deriving DecidableEq, Repr

/-- The mutable locals of one provider-stream pass in `chat_workflow`
(lines 67–70). -/
structure StreamState (J : Type) where
  tool_call_parts : List ToolCallPart
  some_tool_call : Option (ToolCall J)
  some_tool_result : Option ToolResult
  assistant_message_content : String
deriving DecidableEq, Repr

/-- The initial locals of a pass. -/
def StreamState.init : StreamState J :=
  { tool_call_parts := [], some_tool_call := none, some_tool_result := none,
    assistant_message_content := "" }

/-- Processing of one `Ok` chunk in the `while let` loop (lines 74–118):
non-empty content is buffered and emitted as `Text`; of a chunk's tool-call
parts only the first is pushed, emitting `ToolUseDetected` if it is the very
first part seen and carries a name; a `ToolCalls` finish reason assembles the
parts — the `?` aborts the workflow on assembly failure — then emits
`ToolCallStart`, runs the tool and emits `ToolUseEnd`.  Returns the events
emitted, the new state, and an early-return error if any. -/
def processChunk (parse : String → Option J) (toolSvc : ToolCall J → ToolResult)
    (st : StreamState J) (message : ChatCompletionMessage) :
    List (ChatResponse J) × StreamState J × Option String :=
  let (evs₁, st₁) :=
    match message.content with
    | some content =>
      if content ≠ "" then
        ([ChatResponse.Text content],
         { st with assistant_message_content := st.assistant_message_content ++ content })
      else ([], st)
    | none => ([], st)
  let (evs₂, st₂) :=
    match message.tool_call.head? with
    | some tool_part =>
      let detected :=
        if st₁.tool_call_parts = [] then
          match tool_part.name with
          | some n => [ChatResponse.ToolUseDetected n]
          | none => []
        else []
      (detected, { st₁ with tool_call_parts := st₁.tool_call_parts ++ [tool_part] })
    | none => ([], st₁)
  if message.finish_reason = some FinishReason.toolCalls then
    match ToolCall.try_from_parts parse st₂.tool_call_parts with
    | Except.error e => (evs₁ ++ evs₂, st₂, some e)
    | Except.ok tool_call =>
      let tool_result := toolSvc tool_call
      (evs₁ ++ evs₂ ++ [ChatResponse.ToolCallStart tool_call, ChatResponse.ToolUseEnd tool_result],
       { st₂ with some_tool_call := some tool_call, some_tool_result := some tool_result },
       none)
  else
    (evs₁ ++ evs₂, st₂, none)

/-- One provider stream, chunk by chunk; an `Err` chunk makes `chunk?` return
from `chat_workflow` with that error, after the events already sent. -/
def processChunks (parse : String → Option J) (toolSvc : ToolCall J → ToolResult) :
    List (Except String ChatCompletionMessage) → StreamState J →
    List (ChatResponse J) × StreamState J × Option String
  | [], st => ([], st, none)
  | Except.error e :: _, st => ([], st, some e)
  | Except.ok m :: rest, st =>
    match processChunk parse toolSvc st m with
    | (evs, st', some e) => (evs, st', some e)
    | (evs, st', none) =>
      let (evs₂, st₂, err) := processChunks parse toolSvc rest st'
      (evs ++ evs₂, st₂, err)

/-- `Live::chat_workflow` (lines 58–144).  `responses` is the list of streams
the provider returns to the successive requests; exhausting it models a
failing `provider.chat(..)` call.  The first statement of the loop body — the
`ModifyConversation` send at the top of the loop — is commented out in the
source (lines 65–66) and hence absent here.  After a stream: the assistant
message (buffer plus assembled call, if any) is appended and
`ModifyConversation` emitted; if the pass produced a tool result it is
appended, a second `ModifyConversation` emitted, and the loop re-enters,
otherwise the workflow returns `Ok`. -/
def chat_workflow (parse : String → Option J) (toolSvc : ToolCall J → ToolResult)
    (conversation_id : String) (request : Context J) :
    List (List (Except String ChatCompletionMessage)) →
    List (ChatResponse J) × Context J × Option String
  | [] => ([], request, some "provider request failed")
  | response :: rest =>
    match processChunks parse toolSvc response StreamState.init with
    | (evs, _, some e) => (evs, request, some e)
    | (evs, st, none) =>
      let request₁ := request.add_message
        (ContextMessage.assistant st.assistant_message_content st.some_tool_call)
      let evs₁ := evs ++ [ChatResponse.ModifyConversation conversation_id request₁]
      match st.some_tool_result with
      | some tool_result =>
        let request₂ := request₁.add_message (ContextMessage.ToolMessage tool_result)
        let evs₂ := evs₁ ++ [ChatResponse.ModifyConversation conversation_id request₂]
        let (evs₃, requestF, err) := chat_workflow parse toolSvc conversation_id request₂ rest
        (evs₂ ++ evs₃, requestF, err)
      | none => (evs₁, request₁, none)

/-- `Live::chat` (lines 149–176): build the initial request — system prompt,
rendered user prompt, tool list, model — run the workflow, and close the
stream by sending `Err(e)` if the workflow failed and then, unconditionally,
`Complete`.  Returns the emitted stream and the final working context. -/
def chat (parse : String → Option J) (toolSvc : ToolCall J → ToolResult)
    (system_prompt user_prompt model : String) (tool_list : List String)
    (conversation_id : String) (request : Context J)
    (responses : List (List (Except String ChatCompletionMessage))) :
    List (Except String (ChatResponse J)) × Context J :=
  let request :=
    { (request.set_system_message system_prompt).add_message (ContextMessage.user user_prompt)
      with tools := tool_list, model := some model }
  match chat_workflow parse toolSvc conversation_id request responses with
  | (evs, requestF, err) =>
    (evs.map Except.ok
      ++ (match err with | some e => [Except.error e] | none => [])
      ++ [Except.ok ChatResponse.Complete],
     requestF)

end Forge.Chat

namespace Forge.AppSm

/-! ## Application state machine — `forge_server/src/app.rs`

`State::on_finish_reason` (app.rs lines 109–141).  The assembled tool call
type is `Forge.ToolCall J`; the request being built is a
`Forge.Req.Request (Forge.ToolCall J)` (assistant messages carry the call). -/

/-- The chat responses of app.rs (`ChatResponse`, lines 49–60), restricted to
the variants `on_finish_reason` can emit. -/
inductive ChatResponse (J : Type) where
  | Text (s : String)
  | ToolUseStart (tool_name : Option String)
  | ToolUseEnd (r : ToolResult)
  | Complete
  | Fail (s : String)
deriving DecidableEq, Repr

/-- The commands of app.rs (`Command`, lines 39–47); the `Persist` payload (a
snapshot of the whole app) is elided — no claim touches it. -/
inductive Command (J : Type) where
  | FileRead (paths : List String)
  | AssistantMessage (r : Forge.Req.Request (Forge.ToolCall J))
  | UserMessage (m : Forge.AppSm.ChatResponse J)
  | ToolCall (c : Forge.ToolCall J)
  | Persist
deriving DecidableEq, Repr

/-- The state of app.rs (`State`, lines 81–96), restricted to the fields
`on_finish_reason` reads or writes. -/
structure State (J : Type) where
  conversation_id : String
  assistant_buffer : String
  tool_call_part : List ToolCallPart
  request : Forge.Req.Request (Forge.ToolCall J)
deriving DecidableEq, Repr

/-- Split a character list at the first occurrence of `needle`, returning the
part before it and the part after it. -/
def splitAtSub : List Char → List Char → Option (List Char × List Char)
  | [], needle => if needle.isEmpty then some ([], []) else none
  | c :: cs, needle =>
    if needle.isPrefixOf (c :: cs) then some ([], (c :: cs).drop needle.length)
    else
      match splitAtSub cs needle with
      | some (pre, post) => some (c :: pre, post)
      | none => none

/-- Read a tag name: the characters up to the first `>`. -/
def readName : List Char → Option (List Char × List Char)
  | [] => none
  | c :: cs =>
    if c = '>' then some ([], cs)
    else
      match readName cs with
      | some (n, rest) => some (c :: n, rest)
      | none => none

/-- Scan a character list for the tag groups `<name>inner</name>` at the
current level, in order; `fuel` bounds the recursion. -/
def tagGroups : Nat → List Char → List (String × String)
  | 0, _ => []
  | fuel + 1, cs =>
    match splitAtSub cs ['<'] with
    | none => []
    | some (_, rest₁) =>
      match readName rest₁ with
      | none => []
      | some (n, rest₂) =>
        if n.isEmpty ∨ n.head? = some '/' then tagGroups fuel rest₂
        else
          match splitAtSub rest₂ ('<' :: '/' :: (n ++ ['>'])) with
          | none => tagGroups fuel rest₂
          | some (inner, rest₃) => (String.mk n, String.mk inner) :: tagGroups fuel rest₃

/-- Strip enclosing whitespace from a string (Rust's `str::trim`). -/
def trimStr (s : String) : String :=
  String.mk (((s.toList.dropWhile Char.isWhitespace).reverse.dropWhile Char.isWhitespace).reverse)

/-- Modelled from the spec: `ToolCall::try_from_xml` is declared in
`forge_provider`, whose tool-call module is not under `src/`.  Spec §4.8 and
§6 wire format: the text is scanned for outermost tags; each tag's children
become argument name/value pairs with string values stripped of enclosing
whitespace.  The signature — text in, candidate calls out, no registry — is
fixed by the call site at app.rs line 126.  Returns the list of
`(tag name, argument pairs)` candidates in text order; the caller pops the
last. -/
def try_from_xml (s : String) : List (String × List (String × String)) :=
  (tagGroups (s.length + 1) s.toList).map (fun g =>
    (g.1, (tagGroups (g.2.length + 1) g.2.toList).map (fun a => (a.1, trimStr a.2))))

/-- `State::on_finish_reason` (app.rs lines 109–141).  The assistant buffer
becomes an assistant message.  On `ToolCalls`: assemble the parts (the `?`
propagates assembly failure), clear them, command the tool call, and attach
the call to the message.  On `Stop`: recover tool calls from the buffer's
XML; if any, pop the last, command its dispatch and a `ToolUseStart` —
without consulting any tool registry.  Finally append the message and clear
the buffer.  `jObj` stands for the coercion of the recovered string pairs
into a JSON object. -/
def State.on_finish_reason (parse : String → Option J)
    (jObj : List (String × String) → J) (st : State J) (finish_reason : FinishReason) :
    Except String (State J × List (Command J)) :=
  let message₀ : Forge.Req.ContentMessage (Forge.ToolCall J) :=
    { role := Forge.Req.Role.Assistant, content := st.assistant_buffer, tool_call := none }
  if finish_reason = FinishReason.toolCalls then
    match ToolCall.try_from_parts parse st.tool_call_part with
    | Except.error e => Except.error e
    | Except.ok tool_call =>
      let message := { message₀ with tool_call := some tool_call }
      Except.ok
        ({ st with
            tool_call_part := [],
            request := st.request.add_message (Forge.Req.CompletionMessage.ContentMessage message),
            assistant_buffer := "" },
         [Command.ToolCall tool_call])
  else
    let commands :=
      if finish_reason = FinishReason.stop then
        match (try_from_xml st.assistant_buffer).getLast? with
        | some g =>
          [Command.ToolCall { name := g.1, call_id := none, arguments := jObj g.2 },
           Command.UserMessage (ChatResponse.ToolUseStart (some g.1))]
        | none => []
      else []
    Except.ok
      ({ st with
          request := st.request.add_message (Forge.Req.CompletionMessage.ContentMessage message₀),
          assistant_buffer := "" },
       commands)

/-- The names of the tools registered by `Live::new` in
`forge_tool/src/tool_service.rs` (lines 225–246): the snake-cased type names
of the imported tools. -/
def registeredToolNames : List String :=
  ["fs_read", "fs_write", "fs_list", "fs_search", "fs_file_info", "fs_replace",
   "outline", "shell", "think"]

end Forge.AppSm

namespace Forge.Fixtures

/-! ## Concrete instances used by counterexamples and witnesses -/

/-- A JSON-parser instance accepting only the empty object — enough to
exhibit an invalid-JSON argument concatenation. -/
def parseEmptyObj : String → Option Unit :=
  fun s => if s = "\x7b\x7d" then some () else none

/-- A JSON-parser instance accepting everything. -/
def parseAny : String → Option Unit :=
  fun _ => some ()

/-- A JSON-parser instance rejecting everything. -/
def parseNone : String → Option Unit :=
  fun _ => none

/-- A tool service double echoing the call as a success result. -/
def toolOk : ToolCall Unit → ToolResult :=
  fun c => { name := c.name, call_id := c.call_id, content := "ok", is_error := false }

/-- A tool service double producing the unknown-tool error of
`Live::call` (tool_service.rs line 253) as an error result. -/
def toolUnknown : ToolCall Unit → ToolResult :=
  fun c => { name := c.name, call_id := c.call_id,
             content := "No such tool found: " ++ c.name, is_error := true }

/-- Claim C1's scenario: empty context, user says "hi", provider returns the
single chunk `{content:"hello", finish_reason:Stop}` with no tool-call
parts. -/
def chatC1 : List (Except String (Chat.ChatResponse Unit)) × Chat.Context Unit :=
  Chat.chat parseAny toolOk "sys" "hi" "m" [] "cid" Chat.Context.default
    [[Except.ok { content := some "hello", tool_call := [], finish_reason := some FinishReason.stop }]]

/-- Claim C3's scenario: two argument fragments concatenating to `{oops`,
which the parser instance rejects, then a `ToolCalls` finish. -/
def chatC3 : List (Except String (Chat.ChatResponse Unit)) × Chat.Context Unit :=
  Chat.chat parseEmptyObj toolOk "sys" "hi" "m" [] "cid" Chat.Context.default
    [[Except.ok { content := some "t",
                  tool_call := [{ name := some "foo", call_id := some "c1", arguments_part := "\x7b" }],
                  finish_reason := none },
      Except.ok { content := none,
                  tool_call := [{ name := none, call_id := none, arguments_part := "oops" }],
                  finish_reason := none },
      Except.ok { content := none, tool_call := [], finish_reason := some FinishReason.toolCalls }]]

/-- Claim C5's scenario: the provider stream ends in the error `boom`. -/
def chatC5 : List (Except String (Chat.ChatResponse Unit)) × Chat.Context Unit :=
  Chat.chat parseAny toolOk "sys" "hi" "m" [] "cid" Chat.Context.default
    [[Except.error "boom"]]

/-- Claim C2's loop-continuation scenario: the model calls the unknown tool
`zzz`, the tool service answers with an error result, and the next sub-turn
completes with text. -/
def chatC2cont : List (Except String (Chat.ChatResponse Unit)) × Chat.Context Unit :=
  Chat.chat parseAny toolUnknown "sys" "hi" "m" [] "cid" Chat.Context.default
    [[Except.ok { content := none,
                  tool_call := [{ name := some "zzz", call_id := some "c1", arguments_part := "\x7b\x7d" }],
                  finish_reason := some FinishReason.toolCalls }],
     [Except.ok { content := some "done", tool_call := [], finish_reason := some FinishReason.stop }]]

/-- A registry state with two tools, `a_tool` and `b_tool`. -/
def regC2 : ToolSvc.Live Unit :=
  { tools :=
      [("a_tool", { name := "a_tool", executable := fun _ => Except.ok "",
                    definition := { name := "a_tool", description := "da" } }),
       ("b_tool", { name := "b_tool", executable := fun _ => Except.ok "",
                    definition := { name := "b_tool", description := "db" } })] }

/-- A registry state whose `HashMap` iteration order lists `think` before
`fs_read` — a reachable iteration order, since `HashMap` promises none. -/
def regC7 : ToolSvc.Live Unit :=
  { tools :=
      [("think", { name := "think", executable := fun _ => Except.ok "",
                   definition := { name := "think", description := "dt" } }),
       ("fs_read", { name := "fs_read", executable := fun _ => Except.ok "",
                     definition := { name := "fs_read", description := "dr" } })] }

/-- Claim C4's scenario: the state after streaming the XML fragment of
app.rs's own `test_tool_call_xml` into the assistant buffer. -/
def stC4 : AppSm.State (List (String × String)) :=
  { conversation_id := "cid",
    assistant_buffer := "<tool_1><arg_1>a.txt</arg_1><arg_2>b.txt</arg_2></tool_1>",
    tool_call_part := [],
    request := { conversation_id := none, messages := [], model := "m", tools := [] } }

/-- A JSON-parser instance for the C4 state (never consulted on the `Stop`
path). -/
def parseNonePairs : String → Option (List (String × String)) :=
  fun _ => none

/-- A file reader that fails on every path. -/
def readFail : String → Except String String :=
  fun _ => Except.error "io"

/-- A template renderer returning the task unchanged. -/
def renderTask : String → List (String × String) → String :=
  fun t _ => t

end Forge.Fixtures

namespace Forge

/-! ## Claim theorems -/

/-- Claim C8: for every shell input whose command's base command (its first
whitespace-delimited token, the token `Shell::validate_command` inspects) is
one of the blacklisted destructive commands, `Shell::call` returns the
`Command '...' is not allowed` error outcome — in particular not the
`spawned` outcome, so no child process is created. -/
theorem C8_blacklisted_command_is_blocked (input : ShellTool.ShellInput) (base : String)
    (hbase : (ShellTool.splitWhitespace input.command).head? = some base)
    (hblack : base ∈ ShellTool.blacklist) :
    ShellTool.Shell.call input
      = ShellTool.CallOutcome.error ("Command '" ++ base ++ "' is not allowed") := by
  unfold ShellTool.Shell.call ShellTool.validate_command
  cases hcmd : ShellTool.splitWhitespace input.command with
  | nil => rw [hcmd] at hbase; simp at hbase
  | cons b rest =>
    rw [hcmd] at hbase
    simp only [List.head?_cons, Option.some.injEq] at hbase
    subst hbase
    simp [hblack]

/-- Witness for C8 at the concrete input `rm -rf /`. -/
theorem C8_blacklisted_command_is_blocked_witness :
    ShellTool.Shell.call { command := "rm -rf /", cwd := "/tmp" }
      = ShellTool.CallOutcome.error "Command 'rm' is not allowed" :=
  C8_blacklisted_command_is_blocked { command := "rm -rf /", cwd := "/tmp" } "rm"
    (by decide) (by decide)

/-- Claim C9: `Live::set_conversation` with an existing id overwrites only
the row's `content` and `updated_at` (its `id`, `created_at`, `archived` and
`title` survive, and all other rows are untouched); with no id it inserts a
new row under the generated id with `archived = false` and no title. -/
theorem C9_set_conversation_upsert (rows : List ConvRepo.RawConversation)
    (content : String) (n₁ n₂ : Nat) (g i : String)
    (hi : rows.any (fun r => r.id = i) = true)
    (hg : rows.all (fun r => r.id ≠ g) = true) :
    (ConvRepo.set_conversation rows content n₁ n₂ g (some i)
       = rows.map (fun r =>
           if r.id = i then { r with content := content, updated_at := n₂ } else r))
    ∧ (∀ r ∈ rows, r.id ≠ i →
        r ∈ ConvRepo.set_conversation rows content n₁ n₂ g (some i))
    ∧ (∀ r ∈ rows, r.id = i →
        ({ r with content := content, updated_at := n₂ } : ConvRepo.RawConversation)
          ∈ ConvRepo.set_conversation rows content n₁ n₂ g (some i))
    ∧ ConvRepo.set_conversation rows content n₁ n₂ g none
       = rows ++ [{ id := g, created_at := n₁, updated_at := n₂, content := content,
                    archived := false, title := none }] := by
  have hupd : ConvRepo.set_conversation rows content n₁ n₂ g (some i)
      = rows.map (fun r =>
          if r.id = i then { r with content := content, updated_at := n₂ } else r) := by
    simp [ConvRepo.set_conversation, ConvRepo.upsertRow, hi]
  have hfresh : rows.any (fun r => r.id = g) = false := by
    rw [List.any_eq_false]
    intro r hr
    simpa using List.all_eq_true.mp hg r hr
  refine ⟨hupd, ?_, ?_, ?_⟩
  · intro r hr hne
    rw [hupd]
    exact List.mem_map.mpr ⟨r, hr, by simp [hne]⟩
  · intro r hr heq
    rw [hupd]
    exact List.mem_map.mpr ⟨r, hr, by simp [heq]⟩
  · simp [ConvRepo.set_conversation, ConvRepo.upsertRow, hfresh]

/-- Witness for C9 on a one-row table. -/
theorem C9_set_conversation_upsert_witness :
    (ConvRepo.set_conversation [{ id := "u1", created_at := 1, updated_at := 1,
                                  content := "old", archived := true, title := some "t" }]
        "new" 7 8 "u2" (some "u1")
       = [{ id := "u1", created_at := 1, updated_at := 8, content := "new",
            archived := true, title := some "t" }])
    ∧ ConvRepo.set_conversation [{ id := "u1", created_at := 1, updated_at := 1,
                                   content := "old", archived := true, title := some "t" }]
        "new" 7 8 "u2" none
       = [{ id := "u1", created_at := 1, updated_at := 1, content := "old",
            archived := true, title := some "t" },
          { id := "u2", created_at := 7, updated_at := 8, content := "new",
            archived := false, title := none }] := by
  have h := C9_set_conversation_upsert
    [{ id := "u1", created_at := 1, updated_at := 1, content := "old",
       archived := true, title := some "t" }]
    "new" 7 8 "u2" "u1" (by decide) (by decide)
  refine ⟨?_, h.2.2.2⟩
  rw [h.1]
  decide

/-- Claim C10: when the request's message list is non-empty and its first
message is a `ToolMessage`, `Request::set_system_message` returns the request
unchanged — no system message is inserted and nothing is modified. -/
theorem C10_set_system_message_tool_first_noop {J : Type} (r : Req.Request J)
    (tr : ToolResult) (rest : List (Req.CompletionMessage J)) (content : String)
    (h : r.messages = Req.CompletionMessage.ToolMessage tr :: rest) :
    r.set_system_message content = r := by
  obtain ⟨cid, msgs, model, tools⟩ := r
  simp only at h
  subst h
  rfl

/-- Witness for C10 on a request whose first message is a tool result. -/
theorem C10_set_system_message_tool_first_noop_witness :
    Req.Request.set_system_message (J := Unit)
      { conversation_id := none,
        messages := [Req.CompletionMessage.ToolMessage
          { name := "foo", call_id := none, content := "ok", is_error := false }],
        model := "m", tools := [] } "sys"
      = { conversation_id := none,
          messages := [Req.CompletionMessage.ToolMessage
            { name := "foo", call_id := none, content := "ok", is_error := false }],
          model := "m", tools := [] } :=
  C10_set_system_message_tool_first_noop
    { conversation_id := none,
      messages := [Req.CompletionMessage.ToolMessage
        { name := "foo", call_id := none, content := "ok", is_error := false }],
      model := "m", tools := [] }
    { name := "foo", call_id := none, content := "ok", is_error := false } [] "sys" rfl

end Forge

namespace Forge

/-- Claim C2 as stated is false: `Live::call` on an unknown name errors with
the fixed message `No such tool found: zzz`, whose content does not contain
the registered name `a_tool` (nor any enumeration of the registry). -/
theorem C2_counterexample_no_enumeration :
    Fixtures.regC2.call "zzz" () = Except.error "No such tool found: zzz"
    ∧ Fixtures.regC2.tools.map (fun p => p.1) = ["a_tool", "b_tool"]
    ∧ AppSm.splitAtSub "No such tool found: zzz".toList "a_tool".toList = none := by
  refine ⟨rfl, rfl, ?_⟩
  decide

/-- Claim C2, amended: dispatching a tool call whose name is not a key of the
registry returns the error result `No such tool found: <name>` — naming only
the unknown tool, not enumerating the registry — and the agent loop treats
the resulting error result like any other: it is appended to the context and
the loop re-enters the model (here: the error result is streamed as
`ToolUseEnd`, the following sub-turn still produces its text, and the stream
ends with `Complete`). -/
theorem C2_unknown_tool_error (J : Type) (l : ToolSvc.Live J) (name : String) (input : J)
    (h : l.tools.all (fun p => p.1 ≠ name) = true) :
    l.call name input = Except.error ("No such tool found: " ++ name)
    ∧ Fixtures.chatC2cont.1[2]? = some (Except.ok (Chat.ChatResponse.ToolUseEnd
        { name := "zzz", call_id := some "c1",
          content := "No such tool found: zzz", is_error := true }))
    ∧ Fixtures.chatC2cont.1[5]? = some (Except.ok (Chat.ChatResponse.Text "done"))
    ∧ Fixtures.chatC2cont.1.getLast? = some (Except.ok Chat.ChatResponse.Complete) := by
  have hfind : l.tools.find? (fun p => p.1 = name) = none := by
    rw [List.find?_eq_none]
    intro p hp
    have := List.all_eq_true.mp h p hp
    simpa using this
  refine ⟨?_, ?_, ?_, ?_⟩
  · simp [ToolSvc.Live.call, hfind]
  · rfl
  · rfl
  · rfl

/-- Witness for C2 at the two-tool registry and the unknown name `zzz`. -/
theorem C2_unknown_tool_error_witness :
    Fixtures.regC2.call "zzz" () = Except.error "No such tool found: zzz" :=
  (C2_unknown_tool_error Unit Fixtures.regC2 "zzz" () (by decide)).1

/-- Claim C7 as stated is false: on a reachable registry state whose map
iteration order is `think`, `fs_read`, `Live::list` returns the definitions
in that order, which is not sorted by tool name. -/
theorem C7_counterexample_list_unsorted :
    Fixtures.regC7.list.map (fun d => d.name) = ["think", "fs_read"]
    ∧ ¬ ("think" ≤ "fs_read") := by
  refine ⟨rfl, ?_⟩
  rw [String.le_iff_toList_le]
  decide

/-- Claim C7, amended: `Live::list` returns one definition per registered
tool in the registry map's iteration order — deterministic for a given
registry value but not sorted; it is `Live::usage_prompt` that sorts the
tools by definition name before rendering. -/
theorem C7_list_order_and_usage_sort (J : Type) (l : ToolSvc.Live J) :
    l.list = l.tools.map (fun p => p.2.definition)
    ∧ List.Sorted ToolSvc.nameLe l.usage_tools
    ∧ l.usage_tools.Perm (l.tools.map (fun p => p.2)) := by
  refine ⟨rfl, ?_, ?_⟩ <;> unfold ToolSvc.Live.usage_tools
  · exact List.sorted_insertionSort ToolSvc.nameLe _
  · exact List.perm_insertionSort ToolSvc.nameLe _

end Forge

namespace Forge

/-- Claim C6 as stated is false: with a file reader that fails on every path,
`get_user_prompt` on a task referencing `@foo.txt` returns the reader's
error — the unreadable reference aborts prompt assembly instead of being
dropped. -/
theorem C6_counterexample_unreadable_aborts :
    UserPrompt.get_user_prompt Fixtures.readFail Fixtures.renderTask "read @foo.txt"
      = Except.error "io" := rfl

/-- Auxiliary for C6: reading a list of files with `mapM` fails whenever one
of the files fails to read. -/
theorem mapM_read_isErr (read : String → Except String String) :
    ∀ (l : List String) (f : String), f ∈ l → UserPrompt.isErr (read f) = true →
      UserPrompt.isErr (l.mapM (fun p => (read p).map (fun c => (p, c)))) = true := by
  intro l
  induction l with
  | nil => intro f hf; cases hf
  | cons a rest ih =>
    intro f hf herr
    rw [List.mapM_cons]
    cases hra : read a with
    | error e => rfl
    | ok c =>
      have hfr : f ∈ rest := by
        cases hf with
        | head => rw [hra] at herr; simp [UserPrompt.isErr] at herr
        | tail _ h => exact h
      have hrest := ih f hfr herr
      cases hrest' : rest.mapM (fun p => (read p).map (fun c => (p, c))) with
      | error e => rfl
      | ok fs => rw [hrest'] at hrest; simp [UserPrompt.isErr] at hrest

/-- Claim C6, amended: if the task references a file the reader cannot read,
`get_user_prompt` returns an error — the `?` on `file_read.read` propagates
the failure and the turn aborts; unreadable references are not dropped. -/
theorem C6_unreadable_reference_errors (read : String → Except String String)
    (render : String → List (String × String) → String) (task f : String)
    (hf : f ∈ UserPrompt.files task)
    (herr : UserPrompt.isErr (read f) = true) :
    UserPrompt.isErr (UserPrompt.get_user_prompt read render task) = true := by
  have h := mapM_read_isErr read (UserPrompt.files task) f hf herr
  unfold UserPrompt.get_user_prompt
  cases hm : (UserPrompt.files task).mapM (fun p => (read p).map (fun c => (p, c))) with
  | error e => rfl
  | ok fs => rw [hm] at h; simp [UserPrompt.isErr] at h

/-- Witness for C6 at the failing reader and the task `read @foo.txt`. -/
theorem C6_unreadable_reference_errors_witness :
    UserPrompt.isErr
      (UserPrompt.get_user_prompt Fixtures.readFail Fixtures.renderTask "read @foo.txt")
      = true :=
  C6_unreadable_reference_errors Fixtures.readFail Fixtures.renderTask "read @foo.txt"
    "foo.txt" (by decide) rfl

end Forge

namespace Forge

/-- Claim C1 as stated is false: on the single-shot scenario the emitted
stream has three events and opens with `Text("hello")` — the claimed leading
`ContextModified` is absent, because the send at the top of the loop body is
commented out in `chat_workflow` (chat_service.rs lines 65–66). -/
theorem C1_counterexample_event_order :
    Fixtures.chatC1.1.length = 3
    ∧ Fixtures.chatC1.1.head? = some (Except.ok (Chat.ChatResponse.Text "hello")) :=
  ⟨rfl, rfl⟩

/-- Claim C1, amended: on an empty context with one provider chunk
`{content:"hello", finish_reason:Stop}` and no tool-call parts, the emitted
stream is exactly `Text("hello")`, `ContextModified`, `Complete` (a single
`ContextModified`, after the text), and the final context holds exactly one
System, one User and one Assistant message. -/
theorem C1_single_shot_stream (S U m cid : String) (tl : List String) :
    Chat.chat Fixtures.parseAny Fixtures.toolOk S U m tl cid Chat.Context.default
        [[Except.ok { content := some "hello", tool_call := [],
                      finish_reason := some FinishReason.stop }]]
      = ([Except.ok (Chat.ChatResponse.Text "hello"),
          Except.ok (Chat.ChatResponse.ModifyConversation cid
            { messages := [Chat.ContextMessage.system S, Chat.ContextMessage.user U,
                           Chat.ContextMessage.assistant "hello" none],
              tools := tl, model := some m }),
          Except.ok Chat.ChatResponse.Complete],
         { messages := [Chat.ContextMessage.system S, Chat.ContextMessage.user U,
                        Chat.ContextMessage.assistant "hello" none],
           tools := tl, model := some m }) := rfl

/-- Claim C5 as stated is false: after the provider-stream error `boom` the
stream still carries one more event — `Live::chat` unconditionally sends
`Complete` after forwarding the error (chat_service.rs line 170). -/
theorem C5_counterexample_complete_after_error :
    Fixtures.chatC5.1 = [Except.error "boom", Except.ok Chat.ChatResponse.Complete] := rfl

/-- Claim C5, amended: when the provider stream ends in error, the workflow
stops at the error — no event of the failed pass after those already
streamed, and no context mutation — but the stream then closes with the
error item followed by a final `Complete` event. -/
theorem C5_provider_error_then_complete (S U m cid e c : String) (tl : List String)
    (hc : c ≠ "") :
    Chat.chat Fixtures.parseAny Fixtures.toolOk S U m tl cid Chat.Context.default
        [[Except.ok { content := some c, tool_call := [], finish_reason := none },
          Except.error e]]
      = ([Except.ok (Chat.ChatResponse.Text c), Except.error e,
          Except.ok Chat.ChatResponse.Complete],
         { messages := [Chat.ContextMessage.system S, Chat.ContextMessage.user U],
           tools := tl, model := some m }) := by
  simp [Chat.chat, Chat.chat_workflow, Chat.processChunks, Chat.processChunk,
    Chat.StreamState.init, Chat.Context.default, Chat.Context.set_system_message,
    Chat.Context.add_message, Chat.ContextMessage.user, Chat.ContextMessage.system, hc]

/-- Witness for C5 at the content `c = "hi"`. -/
theorem C5_provider_error_then_complete_witness :
    Chat.chat Fixtures.parseAny Fixtures.toolOk "sys" "hi" "m" [] "cid" Chat.Context.default
        [[Except.ok { content := some "hi", tool_call := [], finish_reason := none },
          Except.error "boom"]]
      = ([Except.ok (Chat.ChatResponse.Text "hi"), Except.error "boom",
          Except.ok Chat.ChatResponse.Complete],
         { messages := [Chat.ContextMessage.system "sys", Chat.ContextMessage.user "hi"],
           tools := [], model := some "m" }) :=
  C5_provider_error_then_complete "sys" "hi" "m" "cid" "boom" "hi" [] (by decide)

/-- Claim C3 as stated is false: with the fragments `{` and `oops`
concatenating to `{oops`, which the parser rejects, the turn terminates with
a stream error and `Complete`; no `ToolResult` with `is_error = true` is
appended to the context — the final context still holds only the System and
User messages. -/
theorem C3_counterexample_parse_failure_terminates :
    Fixtures.parseEmptyObj "\x7boops" = none
    ∧ Fixtures.chatC3.1
       = [Except.ok (Chat.ChatResponse.Text "t"),
          Except.ok (Chat.ChatResponse.ToolUseDetected "foo"),
          Except.error "invalid JSON in tool call arguments: \x7boops",
          Except.ok Chat.ChatResponse.Complete]
    ∧ Fixtures.chatC3.2.messages
       = [Chat.ContextMessage.system "sys", Chat.ContextMessage.user "hi"] :=
  ⟨rfl, rfl, rfl⟩

/-- Claim C3, amended: when a turn finishes with `ToolCalls` and the
concatenated argument fragments are not valid JSON, the `?` on
`ToolCall::try_from_parts` aborts `chat_workflow`; the failure is emitted as
a stream error followed by `Complete` — it is not reported as a `ToolResult`
and the assistant/tool messages of the failed pass are never appended. -/
theorem C3_parse_failure_aborts_turn (J : Type) (parse : String → Option J)
    (toolSvc : ToolCall J → ToolResult) (S U m cid n i f₁ f₂ : String) (tl : List String)
    (h : parse (f₁ ++ f₂) = none) :
    Chat.chat parse toolSvc S U m tl cid Chat.Context.default
        [[Except.ok { content := none,
                      tool_call := [{ name := some n, call_id := some i, arguments_part := f₁ }],
                      finish_reason := none },
          Except.ok { content := none,
                      tool_call := [{ name := none, call_id := none, arguments_part := f₂ }],
                      finish_reason := none },
          Except.ok { content := none, tool_call := [],
                      finish_reason := some FinishReason.toolCalls }]]
      = ([Except.ok (Chat.ChatResponse.ToolUseDetected n),
          Except.error ("invalid JSON in tool call arguments: " ++ ("" ++ f₁ ++ f₂)),
          Except.ok Chat.ChatResponse.Complete],
         { messages := [Chat.ContextMessage.system S, Chat.ContextMessage.user U],
           tools := tl, model := some m }) := by
  have h' : parse ("" ++ f₁ ++ f₂) = none := h
  simp [Chat.chat, Chat.chat_workflow, Chat.processChunks, Chat.processChunk,
    Chat.StreamState.init, Chat.Context.default, Chat.Context.set_system_message,
    Chat.Context.add_message, Chat.ContextMessage.user, Chat.ContextMessage.system,
    ToolCall.try_from_parts, String.join, h', h]

/-- Witness for C3 with the everything-rejecting parser and fragments
`{`, `oops`. -/
theorem C3_parse_failure_aborts_turn_witness :
    Chat.chat Fixtures.parseNone Fixtures.toolOk "sys" "hi" "m" [] "cid" Chat.Context.default
        [[Except.ok { content := none,
                      tool_call := [{ name := some "foo", call_id := some "c1",
                                      arguments_part := "\x7b" }],
                      finish_reason := none },
          Except.ok { content := none,
                      tool_call := [{ name := none, call_id := none, arguments_part := "oops" }],
                      finish_reason := none },
          Except.ok { content := none, tool_call := [],
                      finish_reason := some FinishReason.toolCalls }]]
      = ([Except.ok (Chat.ChatResponse.ToolUseDetected "foo"),
          Except.error ("invalid JSON in tool call arguments: " ++ ("" ++ "\x7b" ++ "oops")),
          Except.ok Chat.ChatResponse.Complete],
         { messages := [Chat.ContextMessage.system "sys", Chat.ContextMessage.user "hi"],
           tools := [], model := some "m" }) :=
  C3_parse_failure_aborts_turn Unit Fixtures.parseNone Fixtures.toolOk
    "sys" "hi" "m" "cid" "foo" "c1" "\x7b" "oops" [] rfl

end Forge

namespace Forge

/-- Claim C4 as stated is false: on the assistant buffer of app.rs's own
`test_tool_call_xml` — the tag `tool_1`, registered nowhere (`Live::new`
registers only `registeredToolNames`) — `State::on_finish_reason` on `Stop`
still commands the dispatch of `tool_1` instead of treating the turn as
complete: the recovery never consults a registry. -/
theorem C4_counterexample_unregistered_tag_dispatched :
    AppSm.State.on_finish_reason Fixtures.parseNonePairs id Fixtures.stC4 FinishReason.stop
      = Except.ok
          ({ Fixtures.stC4 with
              request :=
                { conversation_id := none,
                  messages := [Req.CompletionMessage.ContentMessage
                    { role := Req.Role.Assistant,
                      content := "<tool_1><arg_1>a.txt</arg_1><arg_2>b.txt</arg_2></tool_1>",
                      tool_call := none }],
                  model := "m", tools := [] },
              assistant_buffer := "" },
           [AppSm.Command.ToolCall
              { name := "tool_1", call_id := none,
                arguments := [("arg_1", "a.txt"), ("arg_2", "b.txt")] },
            AppSm.Command.UserMessage (AppSm.ChatResponse.ToolUseStart (some "tool_1"))])
    ∧ "tool_1" ∉ AppSm.registeredToolNames := by
  refine ⟨?_, by decide⟩
  rfl

/-- Claim C4, amended: after a `Stop` finish the assistant buffer is scanned
for outermost XML tags of any name — no registry is consulted; if candidates
exist, the last one is recovered (children as trimmed string argument pairs)
and its dispatch plus a `ToolUseStart` are commanded, and if none parses, no
command is issued and the turn is complete.  Either way the buffer becomes
the appended assistant message and is cleared. -/
theorem C4_stop_xml_recovery (J : Type) (parse : String → Option J)
    (jObj : List (String × String) → J) (st : AppSm.State J) :
    (∀ n args, (AppSm.try_from_xml st.assistant_buffer).getLast? = some (n, args) →
      st.on_finish_reason parse jObj FinishReason.stop
        = Except.ok
            ({ st with
                request := st.request.add_message (Req.CompletionMessage.ContentMessage
                  { role := Req.Role.Assistant, content := st.assistant_buffer,
                    tool_call := none }),
                assistant_buffer := "" },
             [AppSm.Command.ToolCall { name := n, call_id := none, arguments := jObj args },
              AppSm.Command.UserMessage (AppSm.ChatResponse.ToolUseStart (some n))]))
    ∧ ((AppSm.try_from_xml st.assistant_buffer).getLast? = none →
      st.on_finish_reason parse jObj FinishReason.stop
        = Except.ok
            ({ st with
                request := st.request.add_message (Req.CompletionMessage.ContentMessage
                  { role := Req.Role.Assistant, content := st.assistant_buffer,
                    tool_call := none }),
                assistant_buffer := "" },
             [])) := by
  constructor
  · intro n args h
    simp [AppSm.State.on_finish_reason, h]
  · intro h
    simp [AppSm.State.on_finish_reason, h]

/-- Witness for C4 applying the recovery case at the concrete buffer of
`test_tool_call_xml`. -/
theorem C4_stop_xml_recovery_witness :
    AppSm.State.on_finish_reason Fixtures.parseNonePairs id Fixtures.stC4 FinishReason.stop
      = Except.ok
          ({ Fixtures.stC4 with
              request := Fixtures.stC4.request.add_message (Req.CompletionMessage.ContentMessage
                { role := Req.Role.Assistant, content := Fixtures.stC4.assistant_buffer,
                  tool_call := none }),
              assistant_buffer := "" },
           [AppSm.Command.ToolCall
              { name := "tool_1", call_id := none,
                arguments := [("arg_1", "a.txt"), ("arg_2", "b.txt")] },
            AppSm.Command.UserMessage (AppSm.ChatResponse.ToolUseStart (some "tool_1"))]) :=
  (C4_stop_xml_recovery (List (String × String)) Fixtures.parseNonePairs id Fixtures.stC4).1
    "tool_1" [("arg_1", "a.txt"), ("arg_2", "b.txt")] (by rfl)

end Forge
